import Mathlib

/-!
Verification of the Meta Ads fetching pipeline
(`fetch_data_facebook_marketing_api`).

The Python source is shallowly embedded: dictionaries become association
lists with Python assignment/lookup semantics (`dset` / `dget`, where a
duplicate key keeps its last-assigned value), floats become rationals,
fallible code returns `Except`, and the remote HTTP service is an explicit
oracle argument.  Each definition carries a comment naming the source
location it embeds.
-/

namespace MetaAds

/-- Python dictionary lookup on an association list built by repeated
insertion: the value of a key is its last binding (later `dict` literal
entries and later assignments overwrite earlier ones). -/
def dget {α : Type} : List (String × α) → String → Option α
  | [], _ => none
  | (k, v) :: rest, key =>
    match dget rest key with
    | some w => some w
    | none => if k = key then some v else none

/-- Python dictionary assignment `d[k] = v`, observed through `dget`: the
new binding is appended, so the key now reads as `v` (the last binding
wins) and every other key reads as before.  Only the values `dget`
returns are modeled, not the in-place position of an overwritten key. -/
def dset {α : Type} (d : List (String × α)) (k : String) (v : α) :
    List (String × α) :=
  d ++ [(k, v)]

/-- A (flattened) Python value appearing in an output row: a float, a
string, or Python None. -/
inductive PyVal where
  | num (q : ℚ)
  | str (s : String)
  | null
  deriving DecidableEq

/-- Lift an optional string (a `.get` on a string field) to a row value. -/
def optStr : Option String → PyVal
  | some s => PyVal.str s
  | none => PyVal.null

/-- One raw insight record as the metric code reads it
(meta_ads/utils/metrics.py): numeric fields accessed through
`float(data.get(k, 0))`, the `actions` list (already keyed as
action_type/value pairs, a later duplicate action_type winning as in the
dict comprehension at metrics.py lines 57-60), the `action_values` mapping
read for roas, and the `date_start` string used by the fetchers. -/
structure InsightData where
  nums : List (String × ℚ)
  actions : List (String × ℚ)
  actionValues : List (String × ℚ)
  dateStart : Option String
  deriving DecidableEq

/-- `float(data.get(k, 0))`: a missing numeric field reads as 0. -/
def iget (d : InsightData) (k : String) : ℚ := (dget d.nums k).getD 0

/-- `action_values.get(t, 0)` over the dict comprehension
`{a[action_type]: float(a[value]) for a in actions}` (metrics.py 56-64). -/
def action_value (d : InsightData) (t : String) : ℚ := (dget d.actions t).getD 0

/-- `float(data.get(action_values, {}).get(purchase, 0))` (metrics.py 80). -/
def purchase_action_value (d : InsightData) : ℚ :=
  (dget d.actionValues "purchase").getD 0

/-- MetricCalculator.calculate_basic_metrics (metrics.py 10-39). -/
def calculate_basic_metrics (d : InsightData) : List (String × ℚ) :=
  let impressions := iget d "impressions"
  let reach := iget d "reach"
  let clicks := iget d "clicks"
  let spend := iget d "spend"
  [("frequency", if reach > 0 then impressions / reach else 0),
   ("ctr", if impressions > 0 then clicks / impressions * 100 else 0),
   ("cpc", if clicks > 0 then spend / clicks else 0),
   ("cpm", if impressions > 0 then spend / impressions * 1000 else 0)]

/-- MetricCalculator.calculate_conversion_metrics (metrics.py 41-83).
The three rate metrics are inserted only under `if impressions > 0`
(lines 68-71) and the three cost metrics only under `if spend > 0`
(lines 74-77); `roas` is always inserted (line 81). -/
def calculate_conversion_metrics (d : InsightData) : List (String × ℚ) :=
  let spend := iget d "spend"
  let purchases := action_value d "purchase"
  let adds_to_cart := action_value d "add_to_cart"
  let checkouts := action_value d "initiate_checkout"
  let impressions := iget d "impressions"
  (if impressions > 0 then
    [("purchase_rate", purchases / impressions * 100),
     ("add_to_cart_rate", adds_to_cart / impressions * 100),
     ("checkout_rate", checkouts / impressions * 100)]
   else []) ++
  (if spend > 0 then
    [("cost_per_purchase", if purchases > 0 then spend / purchases else 0),
     ("cost_per_add_to_cart", if adds_to_cart > 0 then spend / adds_to_cart else 0),
     ("cost_per_checkout", if checkouts > 0 then spend / checkouts else 0)]
   else []) ++
  [("roas", if spend > 0 then purchase_action_value d / spend else 0)]

/-- MetricCalculator.calculate_video_metrics (metrics.py 85-115). -/
def calculate_video_metrics (d : InsightData) : List (String × ℚ) :=
  let video_views := iget d "video_plays"
  let impressions := iget d "impressions"
  let spend := iget d "spend"
  [("view_rate", if impressions > 0 then video_views / impressions * 100 else 0),
   ("cost_per_video_view", if video_views > 0 then spend / video_views else 0)] ++
  ([25, 50, 75, 95, 100].map fun p =>
    ("video_completion_rate_" ++ toString p,
     if video_views > 0 then
       iget d ("video_plays_at_" ++ toString p ++ "_percent") / video_views * 100
     else 0))

/-- The engagement action names iterated at metrics.py 131-137. -/
def engagement_types : List String :=
  ["post_engagement", "post_reactions", "post_comments", "post_shares",
   "page_engagement"]

/-- MetricCalculator.calculate_engagement_metrics (metrics.py 117-145). -/
def calculate_engagement_metrics (d : InsightData) : List (String × ℚ) :=
  let impressions := iget d "impressions"
  engagement_types.map fun t =>
    (t ++ "_rate", if impressions > 0 then iget d t / impressions * 100 else 0)

/-- An all-defaults insight record: every numeric field (impressions,
reach, clicks, spend) reads as 0, no actions, no action values. -/
def zero_insight : InsightData := ⟨[], [], [], none⟩

/-- Whether the character list begins with the needle. -/
def chars_begins : List Char → List Char → Bool
  | [], _ => true
  | _ :: _, [] => false
  | a :: as, b :: bs => a == b && chars_begins as bs

/-- Whether the needle occurs contiguously in the haystack (Python
substring containment, `needle in hay`). -/
def chars_has_sub (needle : List Char) : List Char → Bool
  | [] => chars_begins needle []
  | c :: rest => chars_begins needle (c :: rest) || chars_has_sub needle rest

/-- The rate-limit test of the retry decorator: Python
`"rate limit" in str(e).lower()` (api_client.py 35, decorators.py 21). -/
def rate_limited (e : String) : Bool :=
  chars_has_sub "rate limit".data (e.data.map Char.toLower)

/-- The body of the `for retry in range(max_retries)` loop of
retry_with_backoff (api_client.py 22-44 and, identically up to a
`continue`, decorators.py 6-30).  `f idx` is the outcome of attempt
number `idx` of the wrapped call; the components of the result are the
final outcome, the list of back-off sleeps `delay * 2 ** retry` issued
(api_client.py 36-38), and the number of attempts made.  On a
non-rate-limit error the loop re-raises at once; when the range is
exhausted the last exception is re-raised. -/
def retry_loop {α : Type} (f : ℕ → Except String α) (delay : ℚ) :
    List ℕ → Option String → List ℚ → ℕ → Except String α × List ℚ × ℕ
  | [], last, sleeps, attempts =>
    (Except.error (last.getD "no attempts"), sleeps, attempts)
  | retry :: rest, _, sleeps, attempts =>
    match f retry with
    | Except.ok v => (Except.ok v, sleeps, attempts + 1)
    | Except.error e =>
      if rate_limited e then
        retry_loop f delay rest (some e) (sleeps ++ [delay * 2 ^ retry]) (attempts + 1)
      else
        (Except.error e, sleeps, attempts + 1)

/-- retry_with_backoff(max_retries, initial_delay) applied to a call whose
successive attempts behave as `f` (api_client.py 22-44). -/
def retry_with_backoff {α : Type} (max_retries : ℕ) (initial_delay : ℚ)
    (f : ℕ → Except String α) : Except String α × List ℚ × ℕ :=
  retry_loop f initial_delay (List.range max_retries) none [] 0

/-- One HTTP response page as make_request consumes it: the parsed
`data` array (`data.get('data', [])`) and whether the parsed `paging`
object carries a `next` cursor (`'next' in paging`), api_client.py
160-172. -/
structure PageResp (α : Type) where
  data : List α
  hasNext : Bool
  deriving DecidableEq

/-- The pagination `while 'next' in paging` loop of make_request
(api_client.py 164-172, identical in meta-ads-api-client.py 53-60):
records accumulated so far, whether the last response had a `next`
cursor, and the remaining chain of pages the remote will serve.  `none`
marks the malformed situation of a `next` cursor with no page behind
it, which the well-formed-chain hypothesis rules out. -/
def paginate_pages {α : Type} : List α → Bool → List (PageResp α) → Option (List α)
  | acc, false, _ => some acc
  | _, true, [] => none
  | acc, true, q :: rest => paginate_pages (acc ++ q.data) q.hasNext rest

/-- make_request viewed against the response chain it will receive: the
first page seeds `all_data` and the loop follows `next` cursors
(api_client.py 158-175). -/
def make_request_pages {α : Type} : List (PageResp α) → Option (List α)
  | [] => none
  | p :: rest => paginate_pages p.data p.hasNext rest

/-- A response chain of the shape the claim describes: every page except
the last carries a `next` cursor, the last does not. -/
def chain_ok {α : Type} : List (PageResp α) → Bool
  | [] => false
  | [p] => !p.hasNext
  | p :: q :: rest => p.hasNext && chain_ok (q :: rest)

/-- A parameter value in the query dictionary sent to the remote API. -/
inductive ParamVal where
  | pstr (s : String)
  | pstrList (l : List String)
  | pnat (n : ℕ)
  | ptimeRange (since untilDay : String)
  deriving DecidableEq

/-- The ATTRIBUTION_WINDOWS table, identical in
meta_ads/config/api_config.py 130-137 and meta-ads-config.py. -/
def ATTRIBUTION_WINDOWS : List (String × List (String × ParamVal)) :=
  [("1d_click", [("action_attribution_windows", ParamVal.pstrList ["1d_click"])]),
   ("7d_click", [("action_attribution_windows", ParamVal.pstrList ["7d_click"])]),
   ("28d_click", [("action_attribution_windows", ParamVal.pstrList ["28d_click"])]),
   ("1d_view", [("action_attribution_windows", ParamVal.pstrList ["1d_view"])]),
   ("7d_view", [("action_attribution_windows", ParamVal.pstrList ["7d_view"])]),
   ("default", [("action_attribution_windows", ParamVal.pstrList ["7d_click", "1d_view"])])]

/-- The query dictionary built by MetaAdsAPIClient.get_insights
(api_client.py 187-206): the base params of lines 195-200, then
`params.update(ATTRIBUTION_WINDOWS[attribution_window])` when the window
name is in the table (lines 202-203), `dict.update` being iterated
assignment. -/
def get_insights_params (fields : List String) (attribution_window : String)
    (level : String) : List (String × ParamVal) :=
  let params : List (String × ParamVal) :=
    [("fields", ParamVal.pstr (String.intercalate "," fields)),
     ("level", ParamVal.pstr level),
     ("time_range", ParamVal.ptimeRange "2024-01-01" "2024-11-17"),
     ("limit", ParamVal.pnat 100)]
  match dget ATTRIBUTION_WINDOWS attribution_window with
  | some upd => upd.foldl (fun acc kv => dset acc kv.1 kv.2) params
  | none => params

/-- The caller-visible effect of MetaAdsAPIClient.make_request on its
`params` argument (api_client.py 110-185): the first statement of the
`try` block executes `params["access_token"] = self.access_token`
(line 142); no later statement assigns into `params` (the HTTP call,
the pagination loop and the error handler only read it), so whether the
body returns or raises — abstracted by `respond` — the caller is left
holding the dictionary with the token inserted.  The same assignment is
at meta-ads-api-client.py line 34. -/
def make_request_effect {α : Type} (access_token : String)
    (params : List (String × ParamVal))
    (respond : List (String × ParamVal) → Except String α) :
    Except String α × List (String × ParamVal) :=
  let p := dset params "access_token" (ParamVal.pstr access_token)
  (respond p, p)

/-- COMMON_METRICS of the flat project configuration
(meta-ads-config.py), the list the flat fetchers spread back into each
row; unlike the package configuration it contains no cpc/cpm/ctr. -/
def flatCOMMON_METRICS : List String :=
  ["spend", "impressions", "reach", "clicks", "unique_clicks",
   "inline_link_clicks", "unique_inline_link_clicks"]

/-- CONVERSION_METRICS of meta-ads-config.py. -/
def flatCONVERSION_METRICS : List String :=
  ["purchases", "adds_to_cart", "initiates_checkout", "landing_page_views"]

/-- VIDEO_METRICS of meta-ads-config.py. -/
def flatVIDEO_METRICS : List String :=
  ["video_plays", "video_plays_at_25_percent", "video_plays_at_50_percent",
   "video_plays_at_75_percent", "video_plays_at_95_percent",
   "video_plays_at_100_percent", "video_average_play_time",
   "video_continuous_2_sec_watched_actions", "video_30_sec_watched_actions"]

/-- ENGAGEMENT_METRICS of meta-ads-config.py. -/
def flatENGAGEMENT_METRICS : List String :=
  ["post_engagement", "post_reactions", "post_comments", "post_shares",
   "page_likes", "page_engagement"]

/-- COMMON_METRICS of the package configuration
(meta_ads/config/api_config.py 14-25).  It lists cpc, cpm and ctr as raw
insight fields to request; the package fetchers request them but never
spread them back into rows. -/
def apiCOMMON_METRICS : List String :=
  ["spend", "impressions", "reach", "clicks", "unique_clicks",
   "inline_link_clicks", "unique_inline_link_clicks", "cpc", "cpm", "ctr"]

/-- One ad entity as the ad fetchers read it:
`ad["id"]`, `ad.get(...)` attribute fields, and
`ad.get("creative", {}).get("id")` (the creative reference). -/
structure AdRec where
  id : String
  name : Option String
  adset_id : Option String
  campaign_id : Option String
  status : Option String
  creative : Option String
  deriving DecidableEq

/-- One creative object as process_creative reads it
(meta_ads/fetchers/ad_fetcher.py 29-47, identical in
fetchers/meta-ads-ad-fetcher.py 78-97); platform_customizations maps a
platform key to the `str(settings)` serialization. -/
structure Creative where
  id : Option String
  name : Option String
  body : Option String
  title : Option String
  call_to_action_type : Option String
  link_url : Option String
  image_url : Option String
  video_id : Option String
  platform_customizations : List (String × String)
  deriving DecidableEq

/-- `process_creative({})`: the value passed when an ad has no creative
id — every `.get` returns None and there are no customization blocks. -/
def empty_creative : Creative :=
  ⟨none, none, none, none, none, none, none, none, []⟩

/-- AdFetcher.process_creative (ad_fetcher.py 29-47): the fixed flat
fields, then one `{platform}_customization` entry per customization key. -/
def process_creative (c : Creative) : List (String × PyVal) :=
  [("creative_id", optStr c.id),
   ("creative_name", optStr c.name),
   ("body", optStr c.body),
   ("title", optStr c.title),
   ("call_to_action_type", optStr c.call_to_action_type),
   ("link_url", optStr c.link_url),
   ("image_url", optStr c.image_url),
   ("video_id", optStr c.video_id)] ++
  c.platform_customizations.map fun pc => (pc.1 ++ "_customization", PyVal.str pc.2)

/-- A dynamically-typed value reaching process_creative: either a dict
(what the function expects) or the list that make_request actually
returns.  Calling `.get` on a list raises AttributeError. -/
inductive CreVal where
  | dict (c : Creative)
  | pylist (l : List Creative)

/-- process_creative applied to a dynamic value: succeeds on a dict,
raises on a list (Python lists have no `.get`). -/
def process_creative_dyn : CreVal → Except String (List (String × PyVal))
  | CreVal.dict c => Except.ok (process_creative c)
  | CreVal.pylist _ =>
    Except.error "AttributeError: list object has no attribute get"

/-- The metrics dict built per insight by the ad fetchers
(ad_fetcher.py 79-84, meta-ads-ad-fetcher.py 124-129): the four
calculator results merged into one dict literal. -/
def ad_metrics (i : InsightData) : List (String × ℚ) :=
  calculate_basic_metrics i ++ calculate_conversion_metrics i ++
    calculate_video_metrics i ++ calculate_engagement_metrics i

/-- The same metrics as row values. -/
def ad_metrics_pv (i : InsightData) : List (String × PyVal) :=
  (ad_metrics i).map fun kv => (kv.1, PyVal.num kv.2)

/-- One output row of the package AdFetcher.process_data
(meta_ads/fetchers/ad_fetcher.py 86-95): entity attributes and date,
then the creative flattening, then the derived metrics — nothing after
the metrics. -/
def pkg_ad_row (ad : AdRec) (creative_info : List (String × PyVal))
    (i : InsightData) : List (String × PyVal) :=
  [("ad_id", PyVal.str ad.id),
   ("ad_name", optStr ad.name),
   ("adset_id", optStr ad.adset_id),
   ("campaign_id", optStr ad.campaign_id),
   ("status", optStr ad.status),
   ("date", optStr i.dateStart)] ++
  creative_info ++ ad_metrics_pv i

/-- The raw-field spread of the flat AdFetcher.process_ad_data
(meta-ads-ad-fetcher.py line 140):
`**(k: insight.get(k, 0) for k in COMMON_METRICS + CONVERSION_METRICS +
VIDEO_METRICS + ENGAGEMENT_METRICS)` with the flat configuration lists. -/
def flat_ad_raw_spread (i : InsightData) : List (String × PyVal) :=
  (flatCOMMON_METRICS ++ flatCONVERSION_METRICS ++ flatVIDEO_METRICS ++
      flatENGAGEMENT_METRICS).map fun k => (k, PyVal.num (iget i k))

/-- One output row of the flat AdFetcher.process_ad_data
(meta-ads-ad-fetcher.py 131-141): like the package row but with the raw
insight fields spread after the derived metrics. -/
def flat_ad_row (ad : AdRec) (creative_info : List (String × PyVal))
    (i : InsightData) : List (String × PyVal) :=
  [("ad_id", PyVal.str ad.id),
   ("ad_name", optStr ad.name),
   ("adset_id", optStr ad.adset_id),
   ("campaign_id", optStr ad.campaign_id),
   ("status", optStr ad.status),
   ("date", optStr i.dateStart)] ++
  creative_info ++ ad_metrics_pv i ++ flat_ad_raw_spread i

/-- The package AdFetcher.process_data loop
(meta_ads/fetchers/ad_fetcher.py 49-98).  When an ad carries a creative
id, line 68 evaluates `self.fetch_creative_details(creative_id)`, but
neither AdFetcher nor BaseFetcher (fetchers/base.py) defines a
fetch_creative_details method, so Python attribute resolution raises
AttributeError there; only ads without a creative id are processed. -/
def pkg_ad_process_data (insightsFor : String → List InsightData) :
    List AdRec → Except String (List (List (String × PyVal)))
  | [] => Except.ok []
  | ad :: rest =>
    match ad.creative with
    | some _ =>
      Except.error
        "AttributeError: AdFetcher object has no attribute fetch_creative_details"
    | none =>
      let creative_info := process_creative empty_creative
      let rows := (insightsFor ad.id).map (pkg_ad_row ad creative_info)
      match pkg_ad_process_data insightsFor rest with
      | Except.ok more => Except.ok (rows ++ more)
      | Except.error e => Except.error e

/-- The flat AdFetcher.process_ad_data loop
(meta-ads-ad-fetcher.py 99-144) with its creative lookups logged.
fetch_creative_details (lines 34-40) returns
`api_client.make_request(creative_id, params)`, and make_request always
returns the accumulated `data` list — for a single-object creative
response, `data.get('data', [])` is even the empty list — so
process_creative receives a list where it expects a dict and its first
`.get` raises AttributeError.  `creativeOracle` is the list
make_request hands back for a creative id. -/
def flat_ad_process_data (creativeOracle : String → List Creative)
    (insightsFor : String → List InsightData) (calls : List String) :
    List AdRec → List String × Except String (List (List (String × PyVal)))
  | [] => (calls, Except.ok [])
  | ad :: rest =>
    match ad.creative with
    | some cid =>
      let calls2 := calls ++ [cid]
      match process_creative_dyn (CreVal.pylist (creativeOracle cid)) with
      | Except.error e => (calls2, Except.error e)
      | Except.ok creative_info =>
        let rows := (insightsFor ad.id).map (flat_ad_row ad creative_info)
        match flat_ad_process_data creativeOracle insightsFor calls2 rest with
        | (calls3, Except.ok more) => (calls3, Except.ok (rows ++ more))
        | (calls3, Except.error e) => (calls3, Except.error e)
    | none =>
      let creative_info := process_creative empty_creative
      let rows := (insightsFor ad.id).map (flat_ad_row ad creative_info)
      match flat_ad_process_data creativeOracle insightsFor calls rest with
      | (calls3, Except.ok more) => (calls3, Except.ok (rows ++ more))
      | (calls3, Except.error e) => (calls3, Except.error e)

/-- One campaign entity as the campaign fetchers read it. -/
structure CampaignRec where
  id : String
  name : Option String
  objective : Option String
  buying_type : Option String
  status : Option String
  deriving DecidableEq

/-- One output row of the package CampaignFetcher.process_data
(meta_ads/fetchers/campaign_fetcher.py 79-87): campaign attributes and
date, then the merged basic and conversion metrics, nothing after. -/
def pkg_campaign_row (c : CampaignRec) (i : InsightData) :
    List (String × PyVal) :=
  [("campaign_id", PyVal.str c.id),
   ("campaign_name", optStr c.name),
   ("objective", optStr c.objective),
   ("buying_type", optStr c.buying_type),
   ("status", optStr c.status),
   ("date", optStr i.dateStart)] ++
  ((calculate_basic_metrics i ++ calculate_conversion_metrics i).map
    fun kv => (kv.1, PyVal.num kv.2))

/-- The package CampaignFetcher.process_data loop
(campaign_fetcher.py 52-90): one row per (campaign, insight) pair, in
order.  `insightsFor id aw` is what fetch_campaign_insights returns for
the campaign and attribution window. -/
def pkg_campaign_process_data
    (insightsFor : String → String → List InsightData)
    (campaigns : List CampaignRec) (attribution_window : String) :
    List (List (String × PyVal)) :=
  (campaigns.map fun c =>
    (insightsFor c.id attribution_window).map (pkg_campaign_row c)).flatten

/-- BaseFetcher.get_performance_data (meta_ads/fetchers/base.py 35-62):
fetch_data once, then for every date range and attribution window store
`process_data(data, attribution)` under the key
date_range ++ "_" ++ attribution.  The date range is used only in the
key — no filtering of any kind is applied to the table. -/
def get_performance_data {ε τ : Type} (data : List ε)
    (process : List ε → String → τ)
    (date_ranges attribution_windows : List String) : List (String × τ) :=
  date_ranges.foldl
    (fun acc date_range =>
      attribution_windows.foldl
        (fun acc2 attribution =>
          dset acc2 (date_range ++ "_" ++ attribution) (process data attribution))
        acc)
    []

/-- One output row of the flat CampaignFetcher.process_campaign_data
(fetchers/meta-ads-campaign-fetcher.py 86-95): campaign attributes and
date, the derived metrics, then the raw spread
`**(k: insight.get(k, 0) for k in COMMON_METRICS + CONVERSION_METRICS)`
over the flat configuration lists. -/
def flat_campaign_row (c : CampaignRec) (i : InsightData) :
    List (String × PyVal) :=
  [("campaign_id", PyVal.str c.id),
   ("campaign_name", optStr c.name),
   ("objective", optStr c.objective),
   ("buying_type", optStr c.buying_type),
   ("status", optStr c.status),
   ("date", optStr i.dateStart)] ++
  ((calculate_basic_metrics i ++ calculate_conversion_metrics i).map
    fun kv => (kv.1, PyVal.num kv.2)) ++
  ((flatCOMMON_METRICS ++ flatCONVERSION_METRICS).map
    fun k => (k, PyVal.num (iget i k)))

/-- The flat CampaignFetcher.process_campaign_data loop
(meta-ads-campaign-fetcher.py 61-98). -/
def flat_campaign_process_data
    (insightsFor : String → String → List InsightData)
    (campaigns : List CampaignRec) (attribution_window : String) :
    List (List (String × PyVal)) :=
  (campaigns.map fun c =>
    (insightsFor c.id attribution_window).map (flat_campaign_row c)).flatten

/-- The characters before the first underscore, the
`date_range.split("_")[0]` part. -/
def chars_before_underscore : List Char → List Char
  | [] => []
  | c :: rest => if c = '_' then [] else c :: chars_before_underscore rest

/-- `int(date_range.split("_")[0])` (meta-ads-campaign-fetcher.py 118):
the leading number of an "N_days" identifier, read digit by digit.  (For
an identifier whose leading part is not a number, `int` would raise; the
claims only use "N_days" and "lifetime".) -/
def days_of (date_range : String) : ℕ :=
  (chars_before_underscore date_range.data).foldl
    (fun acc c => acc * 10 + (c.toNat - 48)) 0

/-- The row predicate of the filter
`df[df["date"] >= (datetime.now() - timedelta(days=days)).strftime("%Y-%m-%d")]`
(meta-ads-campaign-fetcher.py 119): the row's date string compares
lexicographically — which, for ISO dates, is chronologically — at or
after the cutoff.  (A row whose date is missing would make Python raise
on the comparison; such rows do not occur in well-formed insight data.) -/
def date_ge_cutoff (cutoff : String) (row : List (String × PyVal)) : Bool :=
  match dget row "date" with
  | some (PyVal.str s) => decide (cutoff ≤ s)
  | _ => false

/-- The flat CampaignFetcher.get_campaign_performance
(meta-ads-campaign-fetcher.py 100-123): per (date range, attribution
window), process once and — unless the range is "lifetime" — keep only
rows dated at or after the trailing-N-day cutoff.  `cutoffFor n` is the
strftime rendering of now minus n days. -/
def flat_get_campaign_performance
    (insightsFor : String → String → List InsightData)
    (campaigns : List CampaignRec) (cutoffFor : ℕ → String)
    (date_ranges attribution_windows : List String) :
    List (String × List (List (String × PyVal))) :=
  date_ranges.foldl
    (fun acc date_range =>
      attribution_windows.foldl
        (fun acc2 attribution =>
          let df := flat_campaign_process_data insightsFor campaigns attribution
          let df2 :=
            if date_range = "lifetime" then df
            else df.filter (date_ge_cutoff (cutoffFor (days_of date_range)))
          dset acc2 (date_range ++ "_" ++ attribution) df2)
        acc)
    []

/-- Every metric key the MetricCalculator produces for an ad row: the
basic, conversion, video and engagement derived metrics. -/
def derived_metric_keys : List String :=
  ["frequency", "ctr", "cpc", "cpm",
   "purchase_rate", "add_to_cart_rate", "checkout_rate",
   "cost_per_purchase", "cost_per_add_to_cart", "cost_per_checkout", "roas",
   "view_rate", "cost_per_video_view",
   "video_completion_rate_25", "video_completion_rate_50",
   "video_completion_rate_75", "video_completion_rate_95",
   "video_completion_rate_100",
   "post_engagement_rate", "post_reactions_rate", "post_comments_rate",
   "post_shares_rate", "page_engagement_rate"]

/-- A concrete day of insight data: 1000 impressions, 500 reach, 50
clicks, 25 spend, 2 purchases worth 100, dated 2020-01-01. -/
def sample_insight : InsightData :=
  ⟨[("impressions", 1000), ("reach", 500), ("clicks", 50), ("spend", 25)],
   [("purchase", 2)], [("purchase", 100)], some "2020-01-01"⟩

/-- A concrete campaign entity. -/
def sample_campaign : CampaignRec :=
  ⟨"c1", some "Camp One", some "OUTCOME_SALES", some "AUCTION", some "ACTIVE"⟩

/-- An insight oracle returning the single 2020-01-01 day for every
entity and attribution window. -/
def stale_oracle : String → String → List InsightData := fun _ _ => [sample_insight]

/-- The table the package campaign fetcher processes out of
`stale_oracle` — its only row is dated 2020-01-01. -/
def stale_table : List (List (String × PyVal)) :=
  pkg_campaign_process_data stale_oracle [sample_campaign] "default"

/-- The package get_performance_data run on that data with the default
argument lists of base.py lines 37-38. -/
def stale_performance : List (String × List (List (String × PyVal))) :=
  get_performance_data [sample_campaign]
    (fun data attribution => pkg_campaign_process_data stale_oracle data attribution)
    ["7_days", "28_days", "lifetime"] ["1d_click", "7d_click", "default"]

/-- A concrete ad that carries a creative reference. -/
def ad_with_creative : AdRec :=
  ⟨"ad1", some "Ad One", some "as1", some "c1", some "ACTIVE", some "cr1"⟩

/-- An insight oracle for single ads. -/
def sample_ad_oracle : String → List InsightData := fun _ => [sample_insight]

/-- The creative response as make_request returns it: a Graph object
response has no data field, so `data.get('data', [])` is empty. -/
def object_response_oracle : String → List Creative := fun _ => []

/-!  Lemmas about the dictionary embedding, then the claim theorems. -/

theorem dget_cons {α : Type} (k' : String) (v' : α) (t : List (String × α))
    (k : String) :
    dget ((k', v') :: t) k =
      match dget t k with
      | some w => some w
      | none => if k' = k then some v' else none := rfl

theorem dget_append_some {α : Type} {ys : List (String × α)} {k : String} {v : α}
    (xs : List (String × α)) (h : dget ys k = some v) :
    dget (xs ++ ys) k = some v := by
  induction xs with
  | nil => simpa using h
  | cons x t ih =>
    obtain ⟨k', v'⟩ := x
    rw [List.cons_append, dget_cons, ih]

theorem dget_append_none {α : Type} {ys : List (String × α)} {k : String}
    (xs : List (String × α)) (h : dget ys k = none) :
    dget (xs ++ ys) k = dget xs k := by
  induction xs with
  | nil => simpa using h
  | cons x t ih =>
    obtain ⟨k', v'⟩ := x
    rw [List.cons_append, dget_cons, ih, dget_cons]

theorem dget_dset_self {α : Type} (d : List (String × α)) (k : String) (v : α) :
    dget (dset d k v) k = some v :=
  dget_append_some d (by simp [dget])

theorem dget_dset_ne {α : Type} (d : List (String × α)) (k k' : String) (v : α)
    (h : k' ≠ k) : dget (dset d k v) k' = dget d k' :=
  dget_append_none d (by
    have hk : ¬k = k' := fun hk => h hk.symm
    simp [dget, hk])

theorem dget_map_keys_none {α : Type} (f : String → α) {k : String} :
    ∀ l : List String, k ∉ l → dget (l.map fun k' => (k', f k')) k = none := by
  intro l
  induction l with
  | nil => intro _; rfl
  | cons x t ih =>
    intro h
    simp only [List.mem_cons, not_or] at h
    have hxk : x ≠ k := fun he => h.1 he.symm
    simp [dget, ih h.2, hxk]

theorem paginate_pages_chain {α : Type} :
    ∀ (ps : List (PageResp α)) (acc : List α), chain_ok ps = true →
      paginate_pages acc true ps = some (acc ++ (ps.map PageResp.data).flatten)
  | [], _, h => by simp [chain_ok] at h
  | [q], acc, h => by
    have hq : q.hasNext = false := by simpa [chain_ok] using h
    simp [paginate_pages, hq]
  | q :: r :: rest, acc, h => by
    have h1 : q.hasNext = true := by
      have := h
      simp only [chain_ok, Bool.and_eq_true] at this
      exact this.1
    have h2 : chain_ok (r :: rest) = true := by
      have := h
      simp only [chain_ok, Bool.and_eq_true] at this
      exact this.2
    have ih := paginate_pages_chain (r :: rest) (acc ++ q.data) h2
    simp only [paginate_pages, h1, ih, List.map_cons, List.flatten_cons,
      List.append_assoc]

/-- C4: for every insight record (missing numeric fields reading as 0),
calculate_basic_metrics returns frequency = impressions/reach when
reach > 0 and 0 otherwise, ctr = clicks/impressions*100 when
impressions > 0 and 0 otherwise, cpc = spend/clicks when clicks > 0 and
0 otherwise, and cpm = spend/impressions*1000 when impressions > 0 and
0 otherwise. -/
theorem c4_basic_metrics_zero_guard (d : InsightData) :
    dget (calculate_basic_metrics d) "frequency" =
      some (if iget d "reach" > 0 then iget d "impressions" / iget d "reach" else 0) ∧
    dget (calculate_basic_metrics d) "ctr" =
      some (if iget d "impressions" > 0 then
        iget d "clicks" / iget d "impressions" * 100 else 0) ∧
    dget (calculate_basic_metrics d) "cpc" =
      some (if iget d "clicks" > 0 then iget d "spend" / iget d "clicks" else 0) ∧
    dget (calculate_basic_metrics d) "cpm" =
      some (if iget d "impressions" > 0 then
        iget d "spend" / iget d "impressions" * 1000 else 0) :=
  ⟨rfl, rfl, rfl, rfl⟩

/-- C5 counterexample: on a record whose impressions and spend read as 0,
calculate_conversion_metrics returns a mapping in which purchase_rate and
cost_per_purchase are absent — not present with value 0 as the claim
states. -/
theorem c5_counterexample :
    dget (calculate_conversion_metrics zero_insight) "purchase_rate" = none ∧
    dget (calculate_conversion_metrics zero_insight) "cost_per_purchase" = none := by
  exact ⟨rfl, rfl⟩

/-- C5 (amended): the rate metrics are present exactly when
impressions > 0, the cost metrics exactly when spend > 0 (each cost then
0 when its action count is 0), and roas is always present; a zero or
missing denominator therefore makes the metric absent (or, for a cost
metric with spend > 0, present with value 0) — the computation never
raises. -/
theorem c5_zero_denominator_policy (d : InsightData) :
    (dget (calculate_conversion_metrics d) "purchase_rate" =
      if iget d "impressions" > 0 then
        some (action_value d "purchase" / iget d "impressions" * 100) else none) ∧
    (dget (calculate_conversion_metrics d) "add_to_cart_rate" =
      if iget d "impressions" > 0 then
        some (action_value d "add_to_cart" / iget d "impressions" * 100) else none) ∧
    (dget (calculate_conversion_metrics d) "checkout_rate" =
      if iget d "impressions" > 0 then
        some (action_value d "initiate_checkout" / iget d "impressions" * 100) else none) ∧
    (dget (calculate_conversion_metrics d) "cost_per_purchase" =
      if iget d "spend" > 0 then
        some (if action_value d "purchase" > 0 then
          iget d "spend" / action_value d "purchase" else 0) else none) ∧
    (dget (calculate_conversion_metrics d) "cost_per_add_to_cart" =
      if iget d "spend" > 0 then
        some (if action_value d "add_to_cart" > 0 then
          iget d "spend" / action_value d "add_to_cart" else 0) else none) ∧
    (dget (calculate_conversion_metrics d) "cost_per_checkout" =
      if iget d "spend" > 0 then
        some (if action_value d "initiate_checkout" > 0 then
          iget d "spend" / action_value d "initiate_checkout" else 0) else none) ∧
    (dget (calculate_conversion_metrics d) "roas" =
      some (if iget d "spend" > 0 then
        purchase_action_value d / iget d "spend" else 0)) := by
  by_cases himp : iget d "impressions" > 0 <;>
    by_cases hsp : iget d "spend" > 0 <;>
      simp [calculate_conversion_metrics, dget, himp, hsp]

/-- C6: for every insight record, calculate_conversion_metrics returns
roas = purchase action value / spend when spend > 0 and roas = 0 when
spend is 0 (or negative), regardless of the purchase value. -/
theorem c6_roas_zero_guard (d : InsightData) :
    dget (calculate_conversion_metrics d) "roas" =
      some (if iget d "spend" > 0 then
        purchase_action_value d / iget d "spend" else 0) := by
  by_cases himp : iget d "impressions" > 0 <;>
    by_cases hsp : iget d "spend" > 0 <;>
      simp [calculate_conversion_metrics, dget, himp, hsp]

/-- C2: with maximum attempt count 3 and initial delay d, a call raising
a rate-limit error twice and then succeeding returns the success on the
third attempt after sleeping d*1 and then d*2; a non-rate-limit error
propagates from the first attempt with no sleeps and no retry; and when
every attempt raises a rate-limit error the last error propagates after
the three attempts. -/
theorem c2_retry_only_on_rate_limit {α : Type} (d : ℚ) (e1 e2 enr : String)
    (v : α) (es : ℕ → String)
    (h1 : rate_limited e1 = true) (h2 : rate_limited e2 = true)
    (h3 : rate_limited enr = false) (h4 : ∀ n, rate_limited (es n) = true) :
    retry_with_backoff 3 d
        (fun n => if n = 0 then Except.error e1
          else if n = 1 then Except.error e2 else Except.ok v) =
      (Except.ok v, [d, d * 2], 3) ∧
    retry_with_backoff 3 d (fun _ => (Except.error enr : Except String α)) =
      (Except.error enr, [], 1) ∧
    retry_with_backoff 3 d (fun n => (Except.error (es n) : Except String α)) =
      (Except.error (es 2), [d, d * 2, d * 4], 3) := by
  have hr : List.range 3 = [0, 1, 2] := rfl
  refine ⟨?_, ?_, ?_⟩
  · simp [retry_with_backoff, hr, retry_loop, h1, h2, h3, h4]
  · simp [retry_with_backoff, hr, retry_loop, h1, h2, h3, h4]
  · simp [retry_with_backoff, hr, retry_loop, h1, h2, h3, h4]
    norm_num

/-- C2 witness: the concrete 429-429-200 scenario with initial delay 5. -/
theorem c2_retry_witness :
    rate_limited "Rate limit reached" = true ∧
    rate_limited "HTTP 500" = false ∧
    retry_with_backoff 3 (5 : ℚ)
        (fun n => if n = 0 then Except.error "Rate limit reached"
          else if n = 1 then Except.error "Rate limit reached"
          else Except.ok (7 : ℕ)) =
      (Except.ok 7, [5, 5 * 2], 3) := by
  refine ⟨by decide, by decide, ?_⟩
  exact (c2_retry_only_on_rate_limit 5 "Rate limit reached" "Rate limit reached"
    "HTTP 500" (7 : ℕ) (fun _ => "Rate limit reached") (by decide) (by decide)
    (by decide)
    (fun _ => (by decide : rate_limited "Rate limit reached" = true))).1

/-- C3: for a response chain in which every page except the last carries
a next cursor, make_request returns the concatenation of all pages'
data arrays in page order; and pagination stops as soon as a page has no
next cursor. -/
theorem c3_pagination_concat {α : Type} :
    (∀ ps : List (PageResp α), chain_ok ps = true →
      make_request_pages ps = some (ps.map PageResp.data).flatten) ∧
    (∀ (p : PageResp α) (rest : List (PageResp α)), p.hasNext = false →
      make_request_pages (p :: rest) = some p.data) := by
  constructor
  · intro ps h
    cases ps with
    | nil => simp [chain_ok] at h
    | cons p rest =>
      cases rest with
      | nil =>
        have hp : p.hasNext = false := by simpa [chain_ok] using h
        simp [make_request_pages, paginate_pages, hp]
      | cons q t =>
        have h1 : p.hasNext = true := by
          simp only [chain_ok, Bool.and_eq_true] at h
          exact h.1
        have h2 : chain_ok (q :: t) = true := by
          simp only [chain_ok, Bool.and_eq_true] at h
          exact h.2
        simp [make_request_pages, h1, paginate_pages_chain (q :: t) p.data h2,
          List.flatten_cons]
  · intro p rest h
    simp [make_request_pages, paginate_pages, h]

/-- C3 witness: a concrete three-page chain concatenates in order. -/
theorem c3_pagination_witness :
    chain_ok [(⟨[1, 2], true⟩ : PageResp ℕ), ⟨[3], true⟩, ⟨[4, 5], false⟩] = true ∧
    make_request_pages
        [(⟨[1, 2], true⟩ : PageResp ℕ), ⟨[3], true⟩, ⟨[4, 5], false⟩] =
      some [1, 2, 3, 4, 5] := by
  refine ⟨by decide, ?_⟩
  have h := (c3_pagination_concat (α := ℕ)).1
    [⟨[1, 2], true⟩, ⟨[3], true⟩, ⟨[4, 5], false⟩] (by decide)
  simpa using h

/-- C9: get_insights with window name "default" submits
action_attribution_windows = [7d_click, 1d_view], and each of the six
enumerated window names maps to exactly the enumerated parameter set. -/
theorem c9_attribution_windows :
    (∀ (fields : List String) (level : String),
      dget (get_insights_params fields "default" level)
          "action_attribution_windows" =
        some (ParamVal.pstrList ["7d_click", "1d_view"])) ∧
    dget ATTRIBUTION_WINDOWS "1d_click" =
      some [("action_attribution_windows", ParamVal.pstrList ["1d_click"])] ∧
    dget ATTRIBUTION_WINDOWS "7d_click" =
      some [("action_attribution_windows", ParamVal.pstrList ["7d_click"])] ∧
    dget ATTRIBUTION_WINDOWS "28d_click" =
      some [("action_attribution_windows", ParamVal.pstrList ["28d_click"])] ∧
    dget ATTRIBUTION_WINDOWS "1d_view" =
      some [("action_attribution_windows", ParamVal.pstrList ["1d_view"])] ∧
    dget ATTRIBUTION_WINDOWS "7d_view" =
      some [("action_attribution_windows", ParamVal.pstrList ["7d_view"])] ∧
    dget ATTRIBUTION_WINDOWS "default" =
      some [("action_attribution_windows",
        ParamVal.pstrList ["7d_click", "1d_view"])] := by
  refine ⟨fun fields level => ?_, rfl, rfl, rfl, rfl, rfl, rfl⟩
  exact dget_dset_self _ _ _

/-- C10: make_request inserts the plaintext access token into the
caller-supplied params dictionary before the request is sent, and after
any call — also a failing one — the caller's dictionary holds that
entry while every other key reads as before. -/
theorem c10_params_mutation {α : Type} (access_token : String)
    (params : List (String × ParamVal))
    (respond : List (String × ParamVal) → Except String α) :
    (make_request_effect access_token params respond).2 =
      dset params "access_token" (ParamVal.pstr access_token) ∧
    dget (make_request_effect access_token params respond).2 "access_token" =
      some (ParamVal.pstr access_token) ∧
    ∀ k : String, k ≠ "access_token" →
      dget (make_request_effect access_token params respond).2 k =
        dget params k := by
  refine ⟨rfl, dget_dset_self _ _ _, fun k hk => dget_dset_ne _ _ _ _ hk⟩

/-- C10 witness: a failing call still leaves the token inserted and the
pre-existing fields entry unchanged. -/
theorem c10_params_mutation_witness :
    ("fields" : String) ≠ "access_token" ∧
    dget (make_request_effect "SECRET" [("fields", ParamVal.pstr "id,name")]
        (fun _ => (Except.error "HTTP 500" : Except String ℕ))).2 "access_token" =
      some (ParamVal.pstr "SECRET") ∧
    dget (make_request_effect "SECRET" [("fields", ParamVal.pstr "id,name")]
        (fun _ => (Except.error "HTTP 500" : Except String ℕ))).2 "fields" =
      dget [("fields", ParamVal.pstr "id,name")] "fields" := by
  refine ⟨by decide, (c10_params_mutation "SECRET" _ _).2.1,
    (c10_params_mutation "SECRET" [("fields", ParamVal.pstr "id,name")]
      (fun _ => (Except.error "HTTP 500" : Except String ℕ))).2.2 "fields"
      (by decide)⟩

/-- C8: in every output row of either ad fetcher, a derived-metric key
holds the MetricCalculator value; the raw-field spread that the flat
fetcher appends after the metrics touches none of the derived keys, and
the package fetcher appends nothing after the metrics. -/
theorem c8_derived_not_overwritten (ad : AdRec)
    (creative_info : List (String × PyVal)) (i : InsightData) (k : String)
    (v : PyVal) (hk : k ∈ derived_metric_keys)
    (hv : dget (ad_metrics_pv i) k = some v) :
    dget (flat_ad_row ad creative_info i) k = some v ∧
    dget (pkg_ad_row ad creative_info i) k = some v := by
  have hdisj : ∀ x ∈ derived_metric_keys,
      x ∉ flatCOMMON_METRICS ++ flatCONVERSION_METRICS ++ flatVIDEO_METRICS ++
        flatENGAGEMENT_METRICS := by decide
  have hraw : dget (flat_ad_raw_spread i) k = none :=
    dget_map_keys_none _ _ (hdisj k hk)
  constructor
  · unfold flat_ad_row
    rw [dget_append_none _ hraw]
    exact dget_append_some _ hv
  · unfold pkg_ad_row
    exact dget_append_some _ hv

/-- C8 witness: the concrete day of data has derived ctr 5, and both
row constructions surface exactly that value. -/
theorem c8_derived_not_overwritten_witness :
    ("ctr" ∈ derived_metric_keys) ∧
    dget (ad_metrics_pv sample_insight) "ctr" = some (PyVal.num 5) ∧
    dget (flat_ad_row ad_with_creative [] sample_insight) "ctr" =
      some (PyVal.num 5) ∧
    dget (pkg_ad_row ad_with_creative [] sample_insight) "ctr" =
      some (PyVal.num 5) := by
  have h0 : dget (ad_metrics_pv sample_insight) "ctr" =
      some (PyVal.num (if iget sample_insight "impressions" > 0 then
        iget sample_insight "clicks" / iget sample_insight "impressions" * 100
      else 0)) := rfl
  have h1 : iget sample_insight "impressions" = (1000 : ℚ) := rfl
  have h2 : iget sample_insight "clicks" = (50 : ℚ) := rfl
  have hv : dget (ad_metrics_pv sample_insight) "ctr" = some (PyVal.num 5) := by
    rw [h0, h1, h2]
    norm_num
  have h := c8_derived_not_overwritten ad_with_creative [] sample_insight
    "ctr" (PyVal.num 5) (by decide) hv
  exact ⟨by decide, hv, h.1, h.2⟩

/-- C7 (code bug): on an ad that carries a creative id, the package
AdFetcher.process_data raises AttributeError — the class defines no
fetch_creative_details — and the flat AdFetcher.process_ad_data performs
the one creative lookup but then raises AttributeError in
process_creative, because fetch_creative_details hands it the list
make_request returns instead of a creative dict.  Neither variant
completes without error. -/
theorem c7_creative_details_error :
    pkg_ad_process_data sample_ad_oracle [ad_with_creative] =
      Except.error
        "AttributeError: AdFetcher object has no attribute fetch_creative_details" ∧
    flat_ad_process_data object_response_oracle sample_ad_oracle []
        [ad_with_creative] =
      (["cr1"], Except.error
        "AttributeError: list object has no attribute get") := by
  exact ⟨rfl, rfl⟩

/-- C1 (code bug): BaseFetcher.get_performance_data keys its result by
date range but never filters by date — the 7-day, 28-day and lifetime
tables are the identical unfiltered table, whose only row here is dated
2020-01-01, far outside any trailing 7- or 28-day window. -/
theorem c1_no_date_filtering :
    dget stale_performance "7_days_default" = some stale_table ∧
    dget stale_performance "28_days_default" = some stale_table ∧
    dget stale_performance "lifetime_default" = some stale_table ∧
    stale_table.map (fun row => dget row "date") =
      [some (PyVal.str "2020-01-01")] := by
  exact ⟨rfl, rfl, rfl, rfl⟩

/-- In contrast, the flat CampaignFetcher.get_campaign_performance does
filter every non-lifetime table to rows dated at or after the
trailing-N-day cutoff, and leaves the lifetime table unfiltered. -/
theorem flat_campaign_performance_filters
    (insightsFor : String → String → List InsightData)
    (campaigns : List CampaignRec) (cutoffFor : ℕ → String) :
    dget (flat_get_campaign_performance insightsFor campaigns cutoffFor
        ["7_days", "lifetime"] ["default"]) "7_days_default" =
      some ((flat_campaign_process_data insightsFor campaigns "default").filter
        (date_ge_cutoff (cutoffFor 7))) ∧
    dget (flat_get_campaign_performance insightsFor campaigns cutoffFor
        ["7_days", "lifetime"] ["default"]) "lifetime_default" =
      some (flat_campaign_process_data insightsFor campaigns "default") := by
  exact ⟨rfl, rfl⟩

end MetaAds
